import Mathlib

/-!
Shallow embedding of the GitHub webhook deployment orchestrator
(`src/main.py` and `src/core/services.py`) and proofs about it.

The repository contains two variants of the `WebhookProcessor` class:
the one in `main.py` (wired to the FastAPI routes) and the one in
`core/services.py` (with the per-app status store and the shell command
runner).  Both are embedded below, in the namespaces `Main` and
`Services`.

Modelling conventions:
* Python byte strings are `List Nat`; Python text strings are `String`
  (a `String` is its list of characters).
* The configuration values `hook_secret`, `deploy_path`,
  `allow_events`, `allow_branches` are read from environment variables
  with `os.getenv`, hence they are raw strings (`Config` below).  The
  Python membership test `x in allow_events` on a string is therefore a
  substring test, modelled by `pyInStr`.
* Webhook payloads are JSON objects.  The code reads only the fields
  `ref`, `commits`, `action`, `repository` (with `name`, `git_url`,
  `full_name`) and `after`, always through `dict.get`; the `Payload`
  structure models exactly those fields, `none` meaning "key absent".
* The filesystem and the process runtime are external: they enter as
  explicit oracle arguments (`fsExists`, `fsIsFile`, and the
  `SpawnResult`/`ExecFlow`/`ShellFlow` outcome of a spawned process).
  Side effects performed by the code (chmod, process creation, print)
  are collected in an explicit `Effect` trace.
* HMAC-SHA256 (`hmac.new(...).hexdigest()`) is an external library
  primitive; it enters the verifier as an explicit function argument
  `digestHex : String → List Nat → String` (secret, body ↦ hex digest).
-/

/-- Characters stripped by Python `str.strip()` (the ASCII whitespace
ones; exotic Unicode whitespace does not occur in this development). -/
def pyCharIsSpace (c : Char) : Bool :=
  c = ' ' || c = '\t' || c = '\n' || c = '\r' || c = '\x0b' || c = '\x0c'

/-- Model of Python `str.strip()`: remove leading and trailing whitespace. -/
def pyStrip (s : String) : String :=
  ⟨((s.data.dropWhile pyCharIsSpace).reverse.dropWhile pyCharIsSpace).reverse⟩

/-- Helper for `pySplitlines`: `acc` holds the current (reversed) line. -/
def pySplitlinesAux : List Char → List Char → List String
  | [], acc => if acc.isEmpty then [] else [⟨acc.reverse⟩]
  | '\r' :: '\n' :: rest, acc => ⟨acc.reverse⟩ :: pySplitlinesAux rest []
  | '\n' :: rest, acc => ⟨acc.reverse⟩ :: pySplitlinesAux rest []
  | '\r' :: rest, acc => ⟨acc.reverse⟩ :: pySplitlinesAux rest []
  | c :: rest, acc => pySplitlinesAux rest (c :: acc)

/-- Model of Python `str.splitlines()` for the line breaks `\n`, `\r`,
`\r\n` (the ones produced by the shell pipelines this code captures):
split at each break, no trailing empty line for a trailing break. -/
def pySplitlines (s : String) : List String :=
  pySplitlinesAux s.data []

/-- Helper for `pyInStr`: does `pat` occur as a contiguous run in the list? -/
def pyInStrAux (pat : List Char) : List Char → Bool
  | [] => pat.isEmpty
  | l@(_ :: rest) => pat.isPrefixOf l || pyInStrAux pat rest

/-- Model of the Python expression `needle in haystack` on `str` values:
substring containment (the empty string is contained in everything). -/
def pyInStr (needle haystack : String) : Bool :=
  pyInStrAux needle.data haystack.data

/-- Model of Python `s.startswith(pre)`. -/
def pyStartswith (s pre : String) : Bool :=
  pre.data.isPrefixOf s.data

/-- Model of the Python slice `s[n:]` (character based). -/
def pyDropChars (s : String) (n : Nat) : String :=
  ⟨s.data.drop n⟩

/-- Helper for `pyReplace`; the fuel is an upper bound on the number of
steps, each step consumes at least one character of the subject. -/
def pyReplaceAux (pat rep : List Char) : Nat → List Char → List Char
  | _, [] => []
  | 0, s => s
  | fuel + 1, c :: rest =>
    if pat.isPrefixOf (c :: rest) then
      rep ++ pyReplaceAux pat rep fuel ((c :: rest).drop pat.length)
    else
      c :: pyReplaceAux pat rep fuel rest

/-- Model of Python `s.replace(pat, rep)` for a non-empty `pat`:
replace every non-overlapping occurrence, scanning left to right.
(The code only calls it with the fixed pattern `"refs/heads/"`; the
empty-pattern corner of `str.replace` is returned unchanged here.) -/
def pyReplace (s pat rep : String) : String :=
  if pat.data = [] then s
  else ⟨pyReplaceAux pat.data rep.data s.data.length s.data⟩

/-- Single-quote character as a one-character string (used to build the
reason strings of `should_deploy` literally as the f-strings do). -/
def squote : String := ⟨[Char.ofNat 39]⟩

/-- Configuration, read once from the environment in `main.py`
(`hook_secret`, `deploy_path`, `allow_events`, `allow_branches` are the
module-level variables; the latter two are raw `os.getenv` strings). -/
structure Config where
  hook_secret : String
  deploy_path : String
  allow_events : String
  allow_branches : String

/-- Fields of `payload["repository"]` that the code reads via `.get`. -/
structure Repo where
  name : Option String := none
  git_url : Option String := none
  full_name : Option String := none

/-- Fields of the webhook payload dictionary that the code reads via
`payload.get`; `none` models an absent key.  Commit entries are kept as
their `id` strings (the code never looks inside a commit). -/
structure Payload where
  ref : Option String := none
  commits : Option (List String) := none
  action : Option String := none
  repository : Option Repo := none
  after : Option String := none

/-- Truthiness of `payload.get("commits")` in Python: an absent key
(`None`) and an empty list are falsy, a non-empty list is truthy. -/
def commitsFalsy : Option (List String) → Bool
  | none => true
  | some [] => true
  | some (_ :: _) => false

/-- Observable side effects issued by the embedded code.  An
environment of `none` on a spawn means "no `env=` argument: the child
inherits the orchestrator's environment". -/
inductive Effect where
  | chmod (path : String) (mode : Nat)
  | spawnExec (path : String) (env : Option (List (String × Option String)))
  | spawnShell (cmd : String) (cwd : String)
  | spawnRun (argv : List String) (env : List (String × Option String))
  | printOut (s : String)
deriving DecidableEq

/-- Outcome of a `subprocess.run` call: either the completed process or
an exception raised while spawning. -/
inductive SpawnResult where
  | ok (rc : Int) (out err : String)
  | exn (msg : String)

/-- Outcome of the `try` block of `execute_deploy_script`: the `chmod`
may raise, the spawn/communicate may raise, or the process completes. -/
inductive ExecFlow where
  | chmodRaises (msg : String)
  | spawnRaises (msg : String)
  | completes (rc : Int) (out err : String)

/-- Outcome of the `try` block of `Services.execute_script`. -/
inductive ShellFlow where
  | spawnRaises (msg : String)
  | completes (rc : Int) (out err : String)

/-- Reason string of the event-type rejection in `should_deploy`
(`f"Event type '{event_type}' not in allowed events"`). -/
def eventReason (event_type : String) : String :=
  "Event type " ++ squote ++ event_type ++ squote ++ " not in allowed events"

/-- Reason string of the branch rejection in `should_deploy`
(`f"Branch '{branch}' not in allowed branches"`). -/
def branchReason (branch : String) : String :=
  "Branch " ++ squote ++ branch ++ squote ++ " not in allowed branches"

/-- Reason string of the release-action rejection in `should_deploy`
(`f"Release action '{action}' does not trigger deployment"`). -/
def releaseReason (action : String) : String :=
  "Release action " ++ squote ++ action ++ squote ++ " does not trigger deployment"

namespace Main

/-- Embedding of `WebhookProcessor.verify_signature` from `main.py`:
check the `"sha256="` prefix, compute the keyed hex digest of the raw
body with the configured secret, and compare it with the rest of the
header via `hmac.compare_digest` (equality; the constant-time aspect is
a timing property outside the embedding). -/
def verify_signature (digestHex : String → List Nat → String)
    (hook_secret : String) (payload : List Nat) (signature : String) : Bool :=
  if pyStartswith signature "sha256=" = false then false
  else digestHex hook_secret payload == pyDropChars signature 7

/-- Embedding of `WebhookProcessor.should_deploy` from `main.py`.
Faithful points: the event-type and branch checks are Python `in` on
the raw configuration strings (`pyInStr`); the branch is
`ref.replace("refs/heads/", "")`, which removes every occurrence of the
pattern (`pyReplace`); the commits check is Python truthiness. -/
def should_deploy (cfg : Config) (event_type : String) (payload : Payload) :
    Bool × String :=
  if pyInStr event_type cfg.allow_events = false then
    (false, eventReason event_type)
  else if event_type = "push" then
    let ref := payload.ref.getD ""
    let branch := pyReplace ref "refs/heads/" ""
    if pyInStr branch cfg.allow_branches = false then
      (false, branchReason branch)
    else if commitsFalsy payload.commits then
      (false, "No commits in push event")
    else
      (true, "Deployment conditions met")
  else if event_type = "release" then
    let action := payload.action.getD ""
    if action ≠ "published" then
      (false, releaseReason action)
    else
      (true, "Deployment conditions met")
  else
    (true, "Deployment conditions met")

/-- Embedding of `WebhookProcessor.execute_deploy_script` from
`main.py`: both path checks return before any effect; past them, the
script is chmodded to `0o755` (= 493) and spawned with
`asyncio.create_subprocess_exec` without an `env=` argument (the child
inherits the orchestrator's environment, hence `none`).  Any exception
of the `try` block is caught and turned into an error result. -/
def execute_deploy_script (fsExists fsIsFile : String → Bool)
    (script_path : String) (flow : ExecFlow) :
    (Bool × String × String) × List Effect :=
  if fsExists script_path = false then
    ((false, "", "Deploy script not found at " ++ script_path), [])
  else if fsIsFile script_path = false then
    ((false, "", "Deploy script path is not a file: " ++ script_path), [])
  else
    match flow with
    | .chmodRaises e =>
      ((false, "", "Failed to execute deploy script: " ++ e),
        [.chmod script_path 493])
    | .spawnRaises e =>
      ((false, "", "Failed to execute deploy script: " ++ e),
        [.chmod script_path 493, .spawnExec script_path none])
    | .completes rc out err =>
      ((rc == 0, out, err),
        [.chmod script_path 493, .spawnExec script_path none])

/-- Result of one run of the background task `run_deployment`:
the final value of `webhook_processor.is_deploying`, whether the
guarded body was entered, and the effects issued. -/
structure RunOutcome where
  is_deploying : Bool
  started : Bool
  effects : List Effect
deriving DecidableEq

/-- Embedding of the background task `run_deployment` from `main.py`.
`isDeploying` is the processor's flag on entry; `innerExn` is an
exception raised by the body before the script call (the logging
section), caught by the `except` clause; in every non-rejected path the
`finally` clause clears the flag. -/
def run_deployment (isDeploying : Bool) (fsExists fsIsFile : String → Bool)
    (script_path : String) (innerExn : Option String) (flow : ExecFlow)
    (_event_type : String) (_payload : Payload) : RunOutcome :=
  if isDeploying then
    { is_deploying := true, started := false, effects := [] }
  else
    match innerExn with
    | some _ => { is_deploying := false, started := true, effects := [] }
    | none =>
      { is_deploying := false, started := true,
        effects := (execute_deploy_script fsExists fsIsFile script_path flow).2 }

/-- Minimal JSON values appearing in the `/status` response body. -/
inductive JVal where
  | jbool (b : Bool)
  | jstr (s : String)
deriving DecidableEq

/-- Embedding of the `GET /status` handler `deployment_status` from
`main.py`: the response object has exactly the three keys built there,
from the processor's flag and script path and the filesystem. -/
def deployment_status (script_path : String) (is_deploying : Bool)
    (fsExists : String → Bool) : List (String × JVal) :=
  [("is_deploying", .jbool is_deploying),
   ("deploy_script_exists", .jbool (fsExists script_path)),
   ("deploy_script_path", .jstr script_path)]

/-- HTTP reply of the webhook route: status code and message. -/
structure WebhookReply where
  code : Nat
  message : String
deriving DecidableEq

/-- Embedding of the `POST /webhook` handler `github_webhook` from
`main.py`.  `parsed` is the outcome of `json.loads` on the body (the
parser is external); the second component of the result records
whether `run_deployment` was scheduled as a background task. -/
def github_webhook (cfg : Config) (digestHex : String → List Nat → String)
    (body : List Nat) (signature event_type : String)
    (parsed : Option Payload) (isDeploying : Bool) : WebhookReply × Bool :=
  if verify_signature digestHex cfg.hook_secret body signature = false then
    ({ code := 403, message := "Invalid signature" }, false)
  else
    match parsed with
    | none => ({ code := 400, message := "Invalid JSON payload" }, false)
    | some payload =>
      let r := should_deploy cfg event_type payload
      if r.1 = false then
        ({ code := 200,
           message := "Webhook received but deployment skipped: " ++ r.2 },
          false)
      else if isDeploying then
        ({ code := 202, message := "Deployment already in progress" }, false)
      else
        ({ code := 202, message := "Deployment triggered successfully" }, true)

end Main

namespace Services

/-- Child environment dictionary built for the push branch of
`Services.should_deploy` (`services.py` lines 50–55): exactly the five
`REPO_*` keys, from the payload's repository object, the computed
branch and the current timestamp — never from the orchestrator's own
environment (the `os.environ.copy()` line is commented out). -/
def pushEnv (branch : String) (repo : Repo) (now : String) :
    List (String × Option String) :=
  [("REPO_BRANCH", some branch),
   ("REPO_NAME", repo.name),
   ("REPO_LINK", repo.git_url),
   ("REPO_FULL", repo.full_name),
   ("REPO_DATE", some now)]

/-- Embedding of `WebhookProcessor.should_deploy` from
`core/services.py`.  Unlike the `main.py` variant, the push branch is
effectful: it builds `pushEnv`, tests `os.path.exists(deploy_path)`,
runs `subprocess.run(["sh", deploy_path], env=new_env, check=True,
capture_output=True)` and prints the captured output.  `check=True`
raises `CalledProcessError` on a non-zero exit, and a missing
`repository` key raises `AttributeError` (`None.get`); exceptions are
modelled by the `Except.error` result.  (The module references
`subprocess`, `datetime` and the configuration names without importing
or defining them; the embedding resolves them as `main.py` does.)
`now` stands for `datetime.now().strftime(...)`. -/
def should_deploy (cfg : Config) (fsExists : String → Bool)
    (runResult : SpawnResult) (now : String)
    (event_type : String) (payload : Payload) :
    Except String (Bool × String) × List Effect :=
  if pyInStr event_type cfg.allow_events = false then
    (.ok (false, eventReason event_type), [])
  else if event_type = "push" then
    let ref := payload.ref.getD ""
    let branch := pyReplace ref "refs/heads/" ""
    if pyInStr branch cfg.allow_branches = false then
      (.ok (false, branchReason branch), [])
    else if commitsFalsy payload.commits then
      (.ok (false, "No commits in push event"), [])
    else
      match payload.repository with
      | none =>
        (.error "AttributeError: NoneType object has no attribute get", [])
      | some repo =>
        let new_env := pushEnv branch repo now
        if fsExists cfg.deploy_path = false then
          (.ok (false, "Deploy script not found at " ++ cfg.deploy_path),
            [.printOut ("Deploy script not found at " ++ cfg.deploy_path)])
        else
          match runResult with
          | .exn e => (.error e, [.spawnRun ["sh", cfg.deploy_path] new_env])
          | .ok rc out err =>
            if rc ≠ 0 then
              (.error ("CalledProcessError: command returned non-zero exit status " ++ toString rc),
                [.spawnRun ["sh", cfg.deploy_path] new_env])
            else
              (.ok (true, "Deployment conditions met"),
                [.spawnRun ["sh", cfg.deploy_path] new_env,
                 .printOut (out ++ " " ++ err)])
  else if event_type = "release" then
    let action := payload.action.getD ""
    if action ≠ "published" then
      (.ok (false, releaseReason action), [])
    else
      (.ok (true, "Deployment conditions met"), [])
  else
    (.ok (true, "Deployment conditions met"), [])

/-- Embedding of `WebhookProcessor.execute_deploy_script` from
`core/services.py`: like the `main.py` one, but the spawn passes the
caller-supplied `new_env` explicitly (and no working directory). -/
def execute_deploy_script (fsExists fsIsFile : String → Bool)
    (script_path : String) (new_env : List (String × Option String))
    (flow : ExecFlow) : (Bool × String × String) × List Effect :=
  if fsExists script_path = false then
    ((false, "", "Deploy script not found at " ++ script_path), [])
  else if fsIsFile script_path = false then
    ((false, "", "Deploy script path is not a file: " ++ script_path), [])
  else
    match flow with
    | .chmodRaises e =>
      ((false, "", "Failed to execute deploy script: " ++ e),
        [.chmod script_path 493])
    | .spawnRaises e =>
      ((false, "", "Failed to execute deploy script: " ++ e),
        [.chmod script_path 493, .spawnExec script_path (some new_env)])
    | .completes rc out err =>
      ((rc == 0, out, err),
        [.chmod script_path 493, .spawnExec script_path (some new_env)])

/-- Per-app record held in `self.status[app]` by `execute_script`;
`none` models an absent dictionary key. -/
structure AppRecord where
  cmd : Option String := none
  path : Option String := none
  stdout : Option (List String) := none
  stderr : Option (List String) := none
  returncode : Option Int := none
  error : Option String := none
deriving DecidableEq

/-- The processor's `self.status` dictionary: the top-level `error` and
`message` keys written by the `error`/`message` helper methods, and one
`AppRecord` per app name. -/
structure ProcStatus where
  error : Option String := none
  message : Option String := none
  apps : String → Option AppRecord := fun _ => none

/-- Embedding of `WebhookProcessor.execute_script` from
`core/services.py`.  Steps, in source order: `self.status[app] = {}`;
compose `cmd` by joining the commands with `" && "`; `self.error('')`
(top-level key); record `cmd`; if the working directory `path` does not
exist, record the not-found message under the `path` key and return
without spawning; otherwise run the composed line with
`create_subprocess_shell(cmd, ..., cwd=path)`, record stripped and
line-split stdout/stderr and the return code, or on an exception record
it under the record's `error` key. -/
def execute_script (st : ProcStatus) (fsExists : String → Bool)
    (app path : String) (commands : List String) (flow : ShellFlow) :
    ProcStatus × (Bool × String × String) × List Effect :=
  let cmd := String.intercalate " && " commands
  let base : AppRecord := { cmd := some cmd }
  let put : AppRecord → ProcStatus := fun r =>
    { st with error := some "",
              apps := fun k => if k = app then some r else st.apps k }
  if fsExists path = false then
    (put { base with path := some ("Deploy [" ++ path ++ "] not found") },
      (false, "", "Deploy [" ++ path ++ "] not found"), [])
  else
    match flow with
    | .spawnRaises e =>
      (put { base with error := some e },
        (false, "", "Failed to execute deploy script: " ++ e),
        [.spawnShell cmd path])
    | .completes rc out err =>
      (put { base with stdout := some (pySplitlines (pyStrip out)),
                       stderr := some (pySplitlines (pyStrip err)),
                       returncode := some rc },
        (rc == 0, pyStrip out, pyStrip err),
        [.spawnShell cmd path])

end Services

/-- Helper for `commaSplit`: accumulate the current entry (reversed). -/
def commaSplitAux : List Char → List Char → List String
  | [], acc => [⟨acc.reverse⟩]
  | ',' :: rest, acc => ⟨acc.reverse⟩ :: commaSplitAux rest []
  | c :: rest, acc => commaSplitAux rest (c :: acc)

/-- Comma-separated entries of a configuration string. -/
def commaSplit (s : String) : List String :=
  commaSplitAux s.data []

/-- Allow-set of event types denoted by the configured `ALLOWED_EVENTS`
string, following the spec's words ("allow-list of event types"): its
comma-separated entries.  This is the spec-side reading of the
configuration, to be compared with the code's substring test. -/
def eventAllowSetSpec (allow_events : String) : List String :=
  commaSplit allow_events

/-- Allow-set of branches denoted by the configured `ALLOWED_BRANCHES`
string, following the spec's words ("allow-list of branches"). -/
def branchAllowSetSpec (allow_branches : String) : List String :=
  commaSplit allow_branches

/-- Branch extraction following the spec's words: strip one leading
`"refs/heads/"` prefix from the ref, leaving the rest of the ref
unchanged.  To be compared with the code's `ref.replace(...)`, which
deletes every occurrence. -/
def branchOfRefSpec (ref : String) : String :=
  if pyStartswith ref "refs/heads/" then pyDropChars ref 11 else ref

/-- Does this effect spawn a child that inherits the orchestrator's
environment (no explicit `env=` argument at the call site)? -/
def Effect.inheritsEnv : Effect → Bool
  | .spawnExec _ none => true
  | .spawnShell _ _ => true
  | _ => false

/-- Concrete configuration used by the concrete instances below:
the documented defaults (`push`/`release` events, `main`/`master`
branches) as environment strings. -/
def cfg0 : Config :=
  { hook_secret := "s3cret", deploy_path := "/srv/deploy.sh",
    allow_events := "push,release", allow_branches := "main,master" }

/-- Concrete eligible push payload: allow-listed branch, one commit,
repository object present. -/
def payload0 : Payload :=
  { ref := some "refs/heads/main", commits := some ["abc123"],
    repository := some { name := some "app", git_url := some "git://x",
                         full_name := some "u/app" } }

/-- Push payload whose ref contains `"refs/heads/"` twice; prefix
stripping and replace-all disagree on it. -/
def payloadNested : Payload :=
  { ref := some "refs/heads/refs/heads/main", commits := some ["c1"] }

/-- Concrete stand-in for the keyed hex digest function, used to
instantiate hypotheses of webhook-route theorems. -/
def dig0 : String → List Nat → String := fun _ _ => "d1"

theorem head_ne_imp_ne (a b : String) (c d : Char)
    (hc : a.data.head? = some c) (hd : b.data.head? = some d)
    (hne : c ≠ d) : a ≠ b := by
  intro h
  rw [h] at hc
  rw [hc] at hd
  exact hne (Option.some.inj hd)

theorem branchReason_ne_eventReason (b et : String) :
    branchReason b ≠ eventReason et :=
  head_ne_imp_ne _ _ 'B' 'E' rfl rfl (by decide)

theorem noCommits_ne_eventReason (et : String) :
    "No commits in push event" ≠ eventReason et :=
  head_ne_imp_ne _ _ 'N' 'E' rfl rfl (by decide)

theorem releaseReason_ne_eventReason (a et : String) :
    releaseReason a ≠ eventReason et :=
  head_ne_imp_ne _ _ 'R' 'E' rfl rfl (by decide)

/-- C1: the claim says `should_deploy` performs no side effects for
every event type and payload.  The `core/services.py` variant violates
it: at an eligible push payload it spawns the deploy script
(`subprocess.run`) inside the decision function, and its boolean result
depends on the filesystem (`os.path.exists(deploy_path)`), not only on
its arguments and the configuration.  This theorem evaluates the
embedded code at such an input: the effect trace contains a process
spawn, and flipping only the filesystem oracle flips the result. -/
theorem C1_services_should_deploy_effectful :
    (Services.should_deploy cfg0 (fun _ => true) (.ok 0 "deployed" "")
        "2026-10-12" "push" payload0).2 =
      [.spawnRun ["sh", "/srv/deploy.sh"]
          [("REPO_BRANCH", some "main"), ("REPO_NAME", some "app"),
           ("REPO_LINK", some "git://x"), ("REPO_FULL", some "u/app"),
           ("REPO_DATE", some "2026-10-12")],
       .printOut "deployed "] ∧
    (Services.should_deploy cfg0 (fun _ => true) (.ok 0 "deployed" "")
        "2026-10-12" "push" payload0).1 =
      .ok (true, "Deployment conditions met") ∧
    (Services.should_deploy cfg0 (fun _ => false) (.ok 0 "deployed" "")
        "2026-10-12" "push" payload0).1 =
      .ok (false, "Deploy script not found at /srv/deploy.sh") :=
  ⟨rfl, rfl, rfl⟩

/-- C2: the busy flag of `run_deployment` is a correct, always-released
guard.  If `is_deploying` is already true the run is rejected (nothing
started, no effects, flag unchanged); otherwise the body runs and on
every exit path — completed script, failed script, chmod or spawn
exception, and an exception raised inside the body itself — the
`finally` clause leaves the flag false, so a subsequent run is
admitted. -/
theorem C2_busy_flag_guard (fsE fsF : String → Bool) (sp : String)
    (exn : Option String) (flow : ExecFlow) (et : String) (p : Payload) :
    Main.run_deployment true fsE fsF sp exn flow et p =
      { is_deploying := true, started := false, effects := [] } ∧
    (Main.run_deployment false fsE fsF sp exn flow et p).is_deploying = false ∧
    (Main.run_deployment false fsE fsF sp exn flow et p).started = true ∧
    (Main.run_deployment
        (Main.run_deployment false fsE fsF sp exn flow et p).is_deploying
        fsE fsF sp exn flow et p).started = true := by
  cases exn <;> simp [Main.run_deployment]

/-- C3 counterexample: with `ALLOWED_EVENTS = "push,release"`, the
event type `"us"` is not a member of the configured allow-set of event
types, yet `should_deploy` accepts it — the code's first check is
Python `in` on the raw string, i.e. substring containment, and `"us"`
occurs inside `"push"`. -/
theorem C3_counterexample :
    ("us" ∉ eventAllowSetSpec cfg0.allow_events) ∧
    Main.should_deploy cfg0 "us" payload0 =
      (true, "Deployment conditions met") :=
  ⟨by decide, rfl⟩

/-- C3 (amended): the first check of `should_deploy` tests substring
containment of `event_type` in the configured `ALLOWED_EVENTS` string;
`should_deploy` returns the event-type rejection — reason naming the
rejected type — exactly when `event_type` is not a substring, and every
substring (member of the allow-set or not) passes the first check. -/
theorem C3_amended (cfg : Config) (et : String) (p : Payload) :
    Main.should_deploy cfg et p = (false, eventReason et) ↔
      pyInStr et cfg.allow_events = false := by
  constructor
  · intro h
    cases hin : pyInStr et cfg.allow_events
    · rfl
    · exfalso
      simp only [Main.should_deploy, hin] at h
      split at h
      · simp_all
      · split at h
        · split at h
          · simp at h
            exact branchReason_ne_eventReason _ _ h
          · split at h
            · simp at h
              exact noCommits_ne_eventReason _ h
            · simp at h
        · split at h
          · split at h
            · simp at h
              exact releaseReason_ne_eventReason _ _ h
            · simp at h
          · simp at h
  · intro h
    simp [Main.should_deploy, h]

/-- C4 counterexample: the claim says the branch is computed by
stripping the `"refs/heads/"` prefix (leaving the rest unchanged) and
that a branch outside the allow-set is rejected.  At
`ref = "refs/heads/refs/heads/main"` the spec-side branch is
`"refs/heads/main"`, which is not in the allow-set {main, master}, so
the claim predicts rejection — but the code deletes every occurrence of
the pattern, computes branch `"main"`, and accepts. -/
theorem C4_counterexample :
    branchOfRefSpec "refs/heads/refs/heads/main" = "refs/heads/main" ∧
    ("refs/heads/main" ∉ branchAllowSetSpec cfg0.allow_branches) ∧
    Main.should_deploy cfg0 "push" payloadNested =
      (true, "Deployment conditions met") :=
  ⟨rfl, by decide, rfl⟩

/-- C4 (amended): for a push event (event type passing the first
check), the branch is computed by deleting every occurrence of
`"refs/heads/"` from the ref (Python `str.replace`, not a prefix
strip), the branch test is substring containment in the configured
`ALLOWED_BRANCHES` string, rejection carries the branch-naming reason,
and a falsy `commits` field (absent or empty) is rejected; otherwise
the push is accepted. -/
theorem C4_amended (cfg : Config) (p : Payload)
    (hev : pyInStr "push" cfg.allow_events = true) :
    (pyInStr (pyReplace (p.ref.getD "") "refs/heads/" "") cfg.allow_branches
        = false →
      Main.should_deploy cfg "push" p =
        (false, branchReason (pyReplace (p.ref.getD "") "refs/heads/" ""))) ∧
    (pyInStr (pyReplace (p.ref.getD "") "refs/heads/" "") cfg.allow_branches
        = true → commitsFalsy p.commits = true →
      Main.should_deploy cfg "push" p = (false, "No commits in push event")) ∧
    (pyInStr (pyReplace (p.ref.getD "") "refs/heads/" "") cfg.allow_branches
        = true → commitsFalsy p.commits = false →
      Main.should_deploy cfg "push" p =
        (true, "Deployment conditions met")) := by
  refine ⟨fun hbr => ?_, fun hbr hc => ?_, fun hbr hc => ?_⟩
  · simp [Main.should_deploy, hev, hbr]
  · simp [Main.should_deploy, hev, hbr, hc]
  · simp [Main.should_deploy, hev, hbr, hc]

theorem C4_witness :
    pyInStr "push" cfg0.allow_events = true ∧
    (pyInStr (pyReplace ((Payload.ref payloadNested).getD "") "refs/heads/" "")
        cfg0.allow_branches = true →
      commitsFalsy (Payload.commits payloadNested) = false →
      Main.should_deploy cfg0 "push" payloadNested =
        (true, "Deployment conditions met")) :=
  ⟨by decide, (C4_amended cfg0 payloadNested (by decide)).2.2⟩

/-- Supporting fact for C5 (valid-signature clause): for every secret
and body, the verifier accepts the header formed from the prefix and
the keyed hex digest of the body. -/
theorem verify_signature_accepts_valid
    (digestHex : String → List Nat → String) (secret : String)
    (body : List Nat) :
    Main.verify_signature digestHex secret body
      ("sha256=" ++ digestHex secret body) = true := by
  unfold Main.verify_signature pyStartswith pyDropChars
  have h1 : "sha256=".data.isPrefixOf
      ("sha256=" ++ digestHex secret body).data = true := by
    rw [String.data_append, List.isPrefixOf_iff_prefix]
    exact List.prefix_append _ _
  have h2 : ("sha256=" ++ digestHex secret body).data.drop 7 =
      (digestHex secret body).data := by
    rw [String.data_append]
    exact List.drop_left' rfl
  rw [h1, h2]
  have h3 : (⟨(digestHex secret body).data⟩ : String) = digestHex secret body := rfl
  simp [h3]

/-- Supporting fact for C5 (prefix clause): the verifier rejects every
signature header that does not begin with `"sha256="`. -/
theorem verify_signature_rejects_bad_prefix
    (digestHex : String → List Nat → String) (secret : String)
    (body : List Nat) (signature : String)
    (h : pyStartswith signature "sha256=" = false) :
    Main.verify_signature digestHex secret body signature = false := by
  simp [Main.verify_signature, h]

/-- Supporting fact for C5 (digest-mutation clause): any provided hex
digest different from the expected one — in particular any single-bit
mutation of it — is rejected. -/
theorem verify_signature_rejects_wrong_digest
    (digestHex : String → List Nat → String) (secret : String)
    (body : List Nat) (provided : String)
    (h : provided ≠ digestHex secret body) :
    Main.verify_signature digestHex secret body
      ("sha256=" ++ provided) = false := by
  unfold Main.verify_signature pyStartswith pyDropChars
  have h1 : "sha256=".data.isPrefixOf ("sha256=" ++ provided).data = true := by
    rw [String.data_append, List.isPrefixOf_iff_prefix]
    exact List.prefix_append _ _
  have h2 : ("sha256=" ++ provided).data.drop 7 = provided.data := by
    rw [String.data_append]
    exact List.drop_left' rfl
  rw [h1, h2]
  have h3 : (⟨provided.data⟩ : String) = provided := rfl
  simp [h3]
  exact fun he => absurd he.symm h

/-- C6: `execute_script` composes the command line by joining the
commands with `" && "`, records that composed line, the stripped and
line-split stdout and stderr, and the process exit code under the
app's record, whose `error` key stays unset; a non-zero exit code is a
captured outcome (`success = false`), not an error. -/
theorem C6_execute_script_records (st : Services.ProcStatus) (fsE : String → Bool)
    (app path : String) (commands : List String) (rc : Int)
    (out err : String) (_hne : commands ≠ []) (hfs : fsE path = true) :
    Services.execute_script st fsE app path commands (.completes rc out err) =
      ({ st with error := some "",
                 apps := fun k => if k = app then
                     some { cmd := some (String.intercalate " && " commands),
                            stdout := some (pySplitlines (pyStrip out)),
                            stderr := some (pySplitlines (pyStrip err)),
                            returncode := some rc }
                   else st.apps k },
        (rc == 0, pyStrip out, pyStrip err),
        [.spawnShell (String.intercalate " && " commands) path]) := by
  simp [Services.execute_script, hfs]

theorem C6_witness :
    (["exit 1"] : List String) ≠ [] ∧
    Services.execute_script {} (fun _ => true) "web" "/srv/app" ["exit 1"]
        (.completes 1 "" "") =
      ({ error := some "", message := none,
         apps := fun k => if k = "web" then
             some { cmd := some "exit 1", path := none,
                    stdout := some [], stderr := some [],
                    returncode := some 1, error := none }
           else Services.ProcStatus.apps {} k },
        (false, "", ""),
        [.spawnShell "exit 1" "/srv/app"]) :=
  ⟨by decide, C6_execute_script_records {} (fun _ => true) "web" "/srv/app"
      ["exit 1"] 1 "" "" (by decide) rfl⟩

/-- C7 counterexample: the `GET /status` handler of `main.py` returns
an object with exactly the keys `is_deploying`, `deploy_script_exists`
and `deploy_script_path`; it contains no execution record — no
`return_code`/`returncode` and no `stdout_lines`/`stderr_lines` — for
any target, contradicting the claim's description of the response. -/
theorem C7_counterexample :
    (Main.deployment_status "/srv/deploy.sh" false (fun _ => true)).map
        Prod.fst =
      ["is_deploying", "deploy_script_exists", "deploy_script_path"] ∧
    "return_code" ∉ (Main.deployment_status "/srv/deploy.sh" false
        (fun _ => true)).map Prod.fst ∧
    "returncode" ∉ (Main.deployment_status "/srv/deploy.sh" false
        (fun _ => true)).map Prod.fst ∧
    "stdout_lines" ∉ (Main.deployment_status "/srv/deploy.sh" false
        (fun _ => true)).map Prod.fst ∧
    "stderr_lines" ∉ (Main.deployment_status "/srv/deploy.sh" false
        (fun _ => true)).map Prod.fst := by
  decide

/-- C7 (amended): a validly-signed, eligible event hitting the webhook
route while no deployment is running is answered 202 ("Deployment
triggered successfully") with the background task scheduled; `GET
/status`, however, reports only the `is_deploying` flag, whether the
script path exists, and the script path — the execution outcome
(return code, output lines) is not exposed by this endpoint. -/
theorem C7_amended (cfg : Config) (digestHex : String → List Nat → String)
    (body : List Nat) (signature et : String) (p : Payload)
    (sp : String) (b : Bool) (fsE : String → Bool)
    (hsig : Main.verify_signature digestHex cfg.hook_secret body signature
      = true)
    (hel : (Main.should_deploy cfg et p).1 = true) :
    Main.github_webhook cfg digestHex body signature et (some p) false =
      ({ code := 202, message := "Deployment triggered successfully" },
        true) ∧
    (Main.deployment_status sp b fsE).map Prod.fst =
      ["is_deploying", "deploy_script_exists", "deploy_script_path"] := by
  constructor
  · simp [Main.github_webhook, hsig, hel]
  · rfl

theorem C7_witness :
    Main.verify_signature dig0 cfg0.hook_secret [] "sha256=d1" = true ∧
    (Main.should_deploy cfg0 "push" payload0).1 = true ∧
    Main.github_webhook cfg0 dig0 [] "sha256=d1" "push" (some payload0)
        false =
      ({ code := 202, message := "Deployment triggered successfully" },
        true) :=
  ⟨by decide, by decide,
    (C7_amended cfg0 dig0 [] "sha256=d1" "push" payload0 "/srv/deploy.sh"
        false (fun _ => true) (by decide) (by decide)).1⟩

/-- C8: when the working directory (`execute_script`) or the script
path (`execute_deploy_script`) does not exist, the runner fails before
spawning: it returns a failure with a descriptive message, records it
in the app's status record (under its `path` key), and issues no
effect at all — no process is created. -/
theorem C8_missing_path_no_spawn (st : Services.ProcStatus) (fsE : String → Bool)
    (app path : String) (commands : List String) (flow : ShellFlow)
    (h : fsE path = false)
    (fsE2 fsF2 : String → Bool) (sp : String) (flow2 : ExecFlow)
    (h2 : fsE2 sp = false) :
    Services.execute_script st fsE app path commands flow =
      ({ st with error := some "",
                 apps := fun k => if k = app then
                     some { cmd := some (String.intercalate " && " commands),
                            path := some ("Deploy [" ++ path ++ "] not found") }
                   else st.apps k },
        (false, "", "Deploy [" ++ path ++ "] not found"), []) ∧
    Main.execute_deploy_script fsE2 fsF2 sp flow2 =
      ((false, "", "Deploy script not found at " ++ sp), []) := by
  constructor
  · simp [Services.execute_script, h]
  · simp [Main.execute_deploy_script, h2]

theorem C8_witness :
    ((fun (_ : String) => false) "/srv/app" = false) ∧
    Services.execute_script {} (fun _ => false) "web" "/srv/app" ["exit 0"]
        (.completes 0 "" "") =
      ({ error := some "", message := none,
         apps := fun k => if k = "web" then
             some { cmd := some "exit 0",
                    path := some "Deploy [/srv/app] not found",
                    stdout := none, stderr := none,
                    returncode := none, error := none }
           else Services.ProcStatus.apps {} k },
        (false, "", "Deploy [/srv/app] not found"), []) ∧
    Main.execute_deploy_script (fun _ => false) (fun _ => true) "/srv/d.sh"
        (.completes 0 "" "") =
      ((false, "", "Deploy script not found at /srv/d.sh"), []) := by
  refine ⟨rfl, ?_, ?_⟩
  · exact (C8_missing_path_no_spawn {} (fun _ => false) "web" "/srv/app"
      ["exit 0"] (.completes 0 "" "") rfl (fun _ => false) (fun _ => true)
      "/srv/d.sh" (.completes 0 "" "") rfl).1
  · exact (C8_missing_path_no_spawn {} (fun _ => false) "web" "/srv/app"
      ["exit 0"] (.completes 0 "" "") rfl (fun _ => false) (fun _ => true)
      "/srv/d.sh" (.completes 0 "" "") rfl).2

/-- C9 counterexample: the deploy-script spawn of `main.py` passes no
`env=` argument: the child inherits the orchestrator's whole
environment instead of receiving exactly the five `REPO_*` variables,
contradicting the claim for this spawn site. -/
theorem C9_counterexample :
    (Main.execute_deploy_script (fun _ => true) (fun _ => true)
        "/srv/deploy.sh" (.completes 0 "" "")).2 =
      [.chmod "/srv/deploy.sh" 493, .spawnExec "/srv/deploy.sh" none] ∧
    Effect.spawnExec "/srv/deploy.sh" none ∈
      (Main.execute_deploy_script (fun _ => true) (fun _ => true)
        "/srv/deploy.sh" (.completes 0 "" "")).2 ∧
    ((Main.execute_deploy_script (fun _ => true) (fun _ => true)
        "/srv/deploy.sh" (.completes 0 "" "")).2.any Effect.inheritsEnv)
      = true := by
  decide

/-- C9 (amended): the environment dictionary built for the
`subprocess.run` spawn inside `services.py`'s `should_deploy` contains
exactly the keys `REPO_BRANCH`, `REPO_NAME`, `REPO_LINK`, `REPO_FULL`,
`REPO_DATE` (for every repository, branch and timestamp), but the
spawn of `main.py`'s `execute_deploy_script` passes no explicit
environment at all: every `spawnExec` effect it issues carries
`env = none`, i.e. the child inherits the orchestrator's
environment. -/
theorem C9_amended (branch : String) (repo : Repo) (now : String)
    (fsE fsF : String → Bool) (sp : String) (flow : ExecFlow)
    (e : String) (env : Option (List (String × Option String)))
    (hmem : Effect.spawnExec e env ∈
      (Main.execute_deploy_script fsE fsF sp flow).2) :
    (Services.pushEnv branch repo now).map Prod.fst =
      ["REPO_BRANCH", "REPO_NAME", "REPO_LINK", "REPO_FULL", "REPO_DATE"] ∧
    env = none := by
  refine ⟨rfl, ?_⟩
  unfold Main.execute_deploy_script at hmem
  split at hmem
  · simp at hmem
  · split at hmem
    · simp at hmem
    · cases flow <;> simp at hmem <;> exact hmem.2

theorem C9_witness :
    Effect.spawnExec "/srv/d.sh" none ∈
      (Main.execute_deploy_script (fun _ => true) (fun _ => true) "/srv/d.sh"
        (.completes 0 "" "")).2 ∧
    ((Services.pushEnv "main" { name := some "app" } "d").map Prod.fst =
      ["REPO_BRANCH", "REPO_NAME", "REPO_LINK", "REPO_FULL", "REPO_DATE"] ∧
    (none : Option (List (String × Option String))) = none) :=
  ⟨by decide,
    C9_amended "main" { name := some "app" } "d" (fun _ => true)
      (fun _ => true) "/srv/d.sh" (.completes 0 "" "") "/srv/d.sh" none
      (by decide)⟩

/-- C10: past the two path checks, every run of
`execute_deploy_script` issues `chmod(script, 0o755)` (mode 493)
before any spawn, in both variants, on every flow — including the
one where the subsequent spawn raises — so the permission change is a
filesystem side effect of every such invocation. -/
theorem C10_chmod_before_spawn (fsE fsF : String → Bool) (sp : String)
    (env : List (String × Option String))
    (h1 : fsE sp = true) (h2 : fsF sp = true) (m : String) (rc : Int)
    (out err : String) :
    (Main.execute_deploy_script fsE fsF sp (.chmodRaises m)).2 =
      [.chmod sp 493] ∧
    (Main.execute_deploy_script fsE fsF sp (.spawnRaises m)).2 =
      [.chmod sp 493, .spawnExec sp none] ∧
    (Main.execute_deploy_script fsE fsF sp (.completes rc out err)).2 =
      [.chmod sp 493, .spawnExec sp none] ∧
    (Services.execute_deploy_script fsE fsF sp env (.spawnRaises m)).2 =
      [.chmod sp 493, .spawnExec sp (some env)] ∧
    (Services.execute_deploy_script fsE fsF sp env (.completes rc out err)).2 =
      [.chmod sp 493, .spawnExec sp (some env)] := by
  simp [Main.execute_deploy_script, Services.execute_deploy_script, h1, h2]

theorem C10_witness :
    ((fun (_ : String) => true) "/srv/d2.sh" = true) ∧
    (Main.execute_deploy_script (fun _ => true) (fun _ => true) "/srv/d2.sh"
        (.spawnRaises "boom")).2 =
      [.chmod "/srv/d2.sh" 493, .spawnExec "/srv/d2.sh" none] :=
  ⟨rfl, (C10_chmod_before_spawn (fun _ => true) (fun _ => true) "/srv/d2.sh"
      [] rfl rfl "boom" 0 "" "").2.1⟩
